/-
Verification of the Analysis Aggregation & Scoring Pipeline
(PR review agent: core/scorer.py, core/analyzer.py, core/feedback.py,
utils/ai_helpers.py), embedded shallowly in Lean 4.

Modelling conventions:
* Python dicts holding issue records become a structure with `Option` fields;
  `d.get(k, default)` becomes `field.getD default`, `d.get(k)` becomes the
  raw `Option` value.
* Python float arithmetic is modelled with exact rationals (`ℚ`); `round(x, 1)`
  and the `"%.1f"` format are modelled by round-half-to-even at one decimal.
* Insertion-ordered Python dicts become association lists (`List (String × _)`)
  updated in place, with new keys appended at the end.
* Python `set` accumulation becomes a duplicate-free list (`addIfAbsent`);
  only its cardinality is observed.
* Code that can raise (`severity_counts[severity] += 1` with a fixed-key dict)
  returns `Except String _`; `KeyError` is modelled as `Except.error`.
-/
import Mathlib

set_option maxRecDepth 100000

namespace PRAgent

/-- An issue record: a map with possibly-missing fields, as produced by the
analysis tools (`src/core/analyzer.py`). -/
structure Issue where
  file : Option String := none
  line : Option Int := none
  severity : Option String := none
  category : Option String := none
  tool : Option String := none
  message : Option String := none
  code : Option String := none
  complexity : Option Int := none
  funcName : Option String := none
  test_id : Option String := none
  confidence : Option String := none
deriving DecidableEq, Repr, Inhabited

/-- A feedback record as built by `FeedbackGenerator` (`src/core/feedback.py`);
every generator writes all of the first seven keys, tool-specific extras are
optional. -/
structure FeedbackItem where
  file : String
  line : Int
  severity : String
  category : String
  message : String
  suggestions : List String
  tool : String
  code : Option String := none
  complexity : Option Int := none
  test_id : Option String := none
  confidence : Option String := none
deriving DecidableEq, Repr, Inhabited

/-- The metrics block of a score result (`PRScorer._calculate_metrics`). -/
structure Metrics where
  total_issues : Nat
  issues_by_severity : List (String × Nat)
  issues_by_category : List (String × Nat)
  issues_by_tool : List (String × Nat)
  files_affected : Nat
  lines_affected : Nat
deriving DecidableEq, Repr, Inhabited

/-- The result dict of `PRScorer.score`. The empty-input short circuit returns
a dict without `metrics` and `recommendations` keys, hence the `Option`s. -/
structure ScoreResult where
  total_score : ℚ
  grade : String
  breakdown : List (String × ℚ)
  summary : String
  metrics : Option Metrics := none
  recommendations : Option (List String) := none
deriving DecidableEq, Repr, Inhabited

/-! ### Generic helpers modelling Python dict / set idioms -/

/-- Association-list lookup (first matching key), modelling `d[k]` / `d.get(k)`
on an insertion-ordered dict. -/
def alookup {β : Type} (k : String) : List (String × β) → Option β
  | [] => none
  | (k₁, v) :: rest => if k₁ = k then some v else alookup k rest

/-- `d[k] = d.get(k, 0) + 1` on a counting dict: increment in place, or append
the new key at the end. -/
def bump : List (String × Nat) → String → List (String × Nat)
  | [], s => [(s, 1)]
  | (k, v) :: rest, s => if k = s then (k, v + 1) :: rest else (k, v) :: bump rest s

/-- `d[k] += 1` on a dict whose key set is fixed: `none` models the `KeyError`
raised when the key is absent. -/
def bumpExisting : List (String × Nat) → String → Option (List (String × Nat))
  | [], _ => none
  | (k, v) :: rest, s =>
    if k = s then some ((k, v + 1) :: rest)
    else (bumpExisting rest s).map (fun r => (k, v) :: r)

/-- Python `set.add`: only the cardinality of the accumulated set is ever
observed, so it is modelled as a duplicate-free list. -/
def addIfAbsent {α : Type} [DecidableEq α] (l : List α) (a : α) : List α :=
  if a ∈ l then l else l ++ [a]

/-- One step of grouping: append `x` to the (unique) bucket labelled `k`,
creating the bucket at the end if absent — Python
`d.setdefault(k, []).append(x)` on an insertion-ordered dict. -/
def addToGroup {α : Type} : List (String × List α) → String → α → List (String × List α)
  | [], k, x => [(k, [x])]
  | (k₁, l) :: rest, k, x =>
    if k₁ = k then (k₁, l ++ [x]) :: rest else (k₁, l) :: addToGroup rest k x

/-- Group a list by a string key, buckets in first-occurrence order
(`PRScorer._group_issues_by_category` and the by-file grouping in
`FeedbackGenerator.generate`). -/
def groupBy {α : Type} (key : α → String) (xs : List α) : List (String × List α) :=
  xs.foldl (fun acc x => addToGroup acc (key x) x) []

/-! ### Rounding: Python `round(x, 1)` / `f"{x:.1f}"` (round half to even) -/

/-- Round a rational to the nearest integer, ties to even (Python's `round`
on the exact values arising here). -/
def roundHE (q : ℚ) : ℤ :=
  if q - ⌊q⌋ < 1/2 then ⌊q⌋
  else if 1/2 < q - ⌊q⌋ then ⌊q⌋ + 1
  else if ⌊q⌋ % 2 = 0 then ⌊q⌋ else ⌊q⌋ + 1

/-- `round(x, 1)`. -/
def round1 (q : ℚ) : ℚ := ((roundHE (10 * q) : ℤ) : ℚ) / 10

/-- `f"{x:.1f}"` for the nonnegative scores arising here. -/
def fmt1 (q : ℚ) : String :=
  let n : ℤ := roundHE (10 * q)
  toString (n / 10) ++ "." ++ toString (n % 10)

/-! ### The scorer (`src/core/scorer.py`) -/

/-- `PRScorer.category_weights`, read through `.get(category, 0.1)`. -/
def category_weights (c : String) : ℚ :=
  if c = "security" then 3/10
  else if c = "error" then 1/4
  else if c = "complexity" then 1/5
  else if c = "style" then 3/20
  else if c = "maintainability" then 1/10
  else if c = "maintenance" then 1/20
  else if c = "unknown" then 1/10
  else 1/10

/-- `PRScorer.severity_penalties`, read through `.get(severity, 5)`. -/
def severity_penalties (s : String) : ℚ :=
  if s = "error" then 20
  else if s = "high" then 15
  else if s = "medium" then 10
  else if s = "low" then 5
  else if s = "info" then 2
  else 5

/-- `PRScorer.tool_weights`, read through `.get(tool, 1.0)`. -/
def tool_weights (t : String) : ℚ :=
  if t = "bandit" then 3/2
  else if t = "safety" then 3/2
  else if t = "radon" then 6/5
  else if t = "flake8" then 1
  else if t = "custom" then 4/5
  else if t = "ai" then 11/10
  else 1

/-- The per-issue penalty accumulated by the loop body of
`PRScorer._calculate_category_penalty`: severity base, category-conditional
multiplier, then tool weight. -/
def issuePenalty (category : String) (i : Issue) : ℚ :=
  let severity := i.severity.getD "info"
  let tool := i.tool.getD "unknown"
  let base := severity_penalties severity
  let base :=
    if category = "security" then base * (3/2)
    else if category = "error" then base * (13/10)
    else if category = "complexity" then base * (6/5)
    else base
  base * tool_weights tool

/-- `PRScorer._calculate_category_penalty`. -/
def calculate_category_penalty (category : String) (issues : List Issue) : ℚ :=
  issues.foldl (fun penalty i => penalty + issuePenalty category i) 0

/-- `PRScorer._calculate_grade`. -/
def calculate_grade (score : ℚ) : String :=
  if 95 ≤ score then "A+"
  else if 90 ≤ score then "A"
  else if 85 ≤ score then "A-"
  else if 80 ≤ score then "B+"
  else if 75 ≤ score then "B"
  else if 70 ≤ score then "B-"
  else if 65 ≤ score then "C+"
  else if 60 ≤ score then "C"
  else if 55 ≤ score then "C-"
  else if 50 ≤ score then "D"
  else "F"

/-- The severity-count loop of `PRScorer._generate_summary`:
`severity_counts` starts with exactly the five known keys and the update
`severity_counts[severity] += 1` raises `KeyError` on any other severity. -/
def countSeverities (issues : List Issue) : Except String (List (String × Nat)) :=
  issues.foldlM
    (fun counts i =>
      let s := i.severity.getD "info"
      match bumpExisting counts s with
      | some counts₁ => Except.ok counts₁
      | none => Except.error ("KeyError: " ++ s))
    [("error", 0), ("high", 0), ("medium", 0), ("low", 0), ("info", 0)]

/-- The category-count loop of `PRScorer._generate_summary` (safe `.get`). -/
def countCategories (issues : List Issue) : List (String × Nat) :=
  issues.foldl (fun counts i => bump counts (i.category.getD "unknown")) []

/-- `PRScorer._generate_summary` (its `category_scores` argument is unused in
the source body and omitted here). -/
def generate_summary (issues : List Issue) (score : ℚ) : Except String String := do
  let severity_counts ← countSeverities issues
  let category_counts := countCategories issues
  let summary :=
    if 90 ≤ score then "Excellent code quality! Score: " ++ fmt1 score ++ "/100. "
    else if 80 ≤ score then "Good code quality with minor issues. Score: " ++ fmt1 score ++ "/100. "
    else if 70 ≤ score then "Code quality needs improvement. Score: " ++ fmt1 score ++ "/100. "
    else if 60 ≤ score then "Code quality is below standards. Score: " ++ fmt1 score ++ "/100. "
    else "Code quality is poor and needs significant improvement. Score: " ++ fmt1 score ++ "/100. "
  let nErr := (alookup "error" severity_counts).getD 0
  let nHigh := (alookup "high" severity_counts).getD 0
  let nMed := (alookup "medium" severity_counts).getD 0
  let summary := if 0 < nErr then summary ++ "Found " ++ toString nErr ++ " errors. " else summary
  let summary := if 0 < nHigh then summary ++ "Found " ++ toString nHigh ++ " high-severity issues. " else summary
  let summary := if 0 < nMed then summary ++ "Found " ++ toString nMed ++ " medium-severity issues. " else summary
  let nSec := (alookup "security" category_counts).getD 0
  let nCpx := (alookup "complexity" category_counts).getD 0
  let summary := if 0 < nSec then summary ++ "Security issues detected (" ++ toString nSec ++ "). " else summary
  let summary := if 0 < nCpx then summary ++ "Complexity issues found (" ++ toString nCpx ++ "). " else summary
  return summary.trim

/-- Accumulator of the single loop in `PRScorer._calculate_metrics`. -/
structure MetricsAcc where
  sev : List (String × Nat)
  cat : List (String × Nat)
  tool : List (String × Nat)
  files : List String
  lines : List Int
deriving Repr

/-- Loop body of `PRScorer._calculate_metrics`. `if issue.get('file'):` is
Python truthiness: the file key must be present and non-empty; likewise a
missing or zero line number is falsy. -/
def metricsStep (acc : MetricsAcc) (i : Issue) : MetricsAcc :=
  { sev := bump acc.sev (i.severity.getD "info")
    cat := bump acc.cat (i.category.getD "unknown")
    tool := bump acc.tool (i.tool.getD "unknown")
    files := match i.file with
      | some f => if f = "" then acc.files else addIfAbsent acc.files f
      | none => acc.files
    lines := match i.line with
      | some n => if n = 0 then acc.lines else addIfAbsent acc.lines n
      | none => acc.lines }

/-- `PRScorer._calculate_metrics`. -/
def calculate_metrics (issues : List Issue) : Metrics :=
  let acc := issues.foldl metricsStep ⟨[], [], [], [], []⟩
  { total_issues := issues.length
    issues_by_severity := acc.sev
    issues_by_category := acc.cat
    issues_by_tool := acc.tool
    files_affected := acc.files.length
    lines_affected := acc.lines.length }

/-- `PRScorer._generate_recommendations` (its `category_scores` argument is
unused in the source body and omitted here). Note the membership tests use
`.get` without a default, so a missing field never matches. -/
def generate_recommendations (issues : List Issue) : List String :=
  (if issues.any (fun i => i.category = some "security") then
    ["🔒 Address security issues immediately - these are critical for production safety"] else [])
  ++ (if issues.any (fun i => i.severity = some "error") then
    ["❌ Fix all errors before merging - these will cause runtime failures"] else [])
  ++ (if issues.any (fun i => i.category = some "complexity") then
    ["🧩 Refactor complex functions to improve maintainability"] else [])
  ++ (if issues.any (fun i => i.category = some "style") then
    ["📝 Fix style issues to improve code readability"] else [])
  ++ (if 20 < issues.length then
    ["📊 Consider breaking this PR into smaller, more focused changes"]
  else if 10 < issues.length then
    ["🔍 Review the code more carefully before submitting"] else [])
  ++ (if issues.any (fun i => i.tool = some "bandit") then
    ["🛡️ Run security scans regularly in your development workflow"] else [])
  ++ (if issues.any (fun i => i.tool = some "radon") then
    ["📊 Consider adding complexity checks to your CI/CD pipeline"] else [])

/-- The fixed perfect result returned by `PRScorer.score` on an empty issue
list (no `metrics` / `recommendations` keys). -/
def emptyScoreResult : ScoreResult :=
  { total_score := 100
    grade := "A+"
    breakdown := [("security", 100), ("quality", 100), ("maintainability", 100), ("style", 100)]
    summary := "No issues found - excellent code quality!" }

/-- `issue.get('category', 'unknown')`: the key used to group for scoring. -/
def issueCategory (i : Issue) : String := i.category.getD "unknown"

/-- The `category_scores` dict built by the loop in `PRScorer.score`. -/
def scoreBreakdown (issues : List Issue) : List (String × ℚ) :=
  (groupBy issueCategory issues).map
    (fun g => (g.1, max 0 (100 - calculate_category_penalty g.1 g.2)))

/-- The `total_penalty` accumulated by the loop in `PRScorer.score`. -/
def scoreTotalPenalty (issues : List Issue) : ℚ :=
  (groupBy issueCategory issues).foldl
    (fun acc g => acc + calculate_category_penalty g.1 g.2 * category_weights g.1) 0

/-- `final_score = max(0, base_score - total_penalty)` in `PRScorer.score`. -/
def scoreFinal (issues : List Issue) : ℚ :=
  max 0 (100 - scoreTotalPenalty issues)

/-- `PRScorer.score`. The only failure point is the `KeyError` in
`_generate_summary`, hence the `Except`. -/
def score (issues : List Issue) : Except String ScoreResult :=
  if issues = [] then Except.ok emptyScoreResult
  else
    match generate_summary issues (scoreFinal issues) with
    | Except.error e => Except.error e
    | Except.ok summary =>
      Except.ok
        { total_score := round1 (scoreFinal issues)
          grade := calculate_grade (scoreFinal issues)
          breakdown := scoreBreakdown issues
          summary := summary
          metrics := some (calculate_metrics issues)
          recommendations := some (generate_recommendations issues) }

/-! ### The analyzer (`src/core/analyzer.py`) -/

/-- Python `str.startswith`, as character-list prefix. -/
def startsWithStr (s p : String) : Bool :=
  p.data.isPrefixOf s.data

/-- `Analyzer._get_severity_from_code`: map flake8 codes to severities. -/
def get_severity_from_code (code : String) : String :=
  if startsWithStr code "E" then "error"
  else if startsWithStr code "W" then "warning"
  else if startsWithStr code "F" then "error"
  else "info"

/-- The dedup key `(file, line, message)` with the source's defaults
(`issue.get('file', '')`, `issue.get('line', 0)`, `issue.get('message', '')`). -/
def dedupKey (i : Issue) : String × Int × String :=
  (i.file.getD "", i.line.getD 0, i.message.getD "")

/-- `Analyzer._deduplicate_issues`: single pass with a `seen` set of keys,
keeping an issue only when its key has not been seen. -/
def deduplicate_issues (issues : List Issue) : List Issue :=
  (issues.foldl
    (fun st i =>
      if dedupKey i ∈ st.1 then st
      else (dedupKey i :: st.1, st.2 ++ [i]))
    (([] : List (String × Int × String)), ([] : List Issue))).2

/-! ### The feedback generator (`src/core/feedback.py`) -/

/-- `FeedbackGenerator.templates['style']`: flake8 code → canned message. -/
def styleTemplates : List (String × String) :=
  [("E501", "Line too long ({length} characters). Consider breaking it into multiple lines or using line continuation."),
   ("E302", "Expected 2 blank lines before class definition."),
   ("E305", "Expected 2 blank lines after class or function definition."),
   ("W293", "Blank line contains whitespace. Remove trailing whitespace."),
   ("E111", "Indentation is not a multiple of four spaces."),
   ("E112", "Expected an indented block.")]

/-- `FeedbackGenerator._generate_flake8_feedback`. -/
def generate_flake8_feedback (issue : Issue) : FeedbackItem :=
  let code := issue.code.getD ""
  let message := issue.message.getD ""
  let line := issue.line.getD 0
  let template_msg := (alookup code styleTemplates).getD message
  let suggestions :=
    if code = "E501" then ["Break long lines using parentheses, backslashes, or string concatenation"]
    else if code = "F841" then ["Remove unused variable or use it in your code"]
    else if code = "F401" then ["Remove unused import or use the imported module"]
    else []
  { file := issue.file.getD ""
    line := line
    severity := issue.severity.getD "info"
    category := "style"
    message := template_msg
    suggestions := suggestions
    code := some code
    tool := "flake8" }

/-- Case-folded substring test modelling Python `sub in message.lower()` for
the lowercase keywords used in `_generate_security_feedback`. -/
def containsLower (message sub : String) : Bool :=
  (message.toLower.splitOn sub).length ≠ 1

/-- `FeedbackGenerator._generate_security_feedback`. -/
def generate_security_feedback (issue : Issue) : FeedbackItem :=
  let message := issue.message.getD ""
  let suggestions :=
    if containsLower message "hardcoded" then
      ["Use environment variables or secure configuration management",
       "Consider using a secrets management service"]
    else if containsLower message "exec" then
      ["Avoid using exec() with user input",
       "Consider using safer alternatives like ast.literal_eval()"]
    else []
  { file := issue.file.getD ""
    line := issue.line.getD 0
    severity := issue.severity.getD "high"
    category := "security"
    message := "Security issue: " ++ message
    suggestions := suggestions
    test_id := some (issue.test_id.getD "")
    confidence := some (issue.confidence.getD "medium")
    tool := "bandit" }

/-- `FeedbackGenerator._generate_complexity_feedback`. -/
def generate_complexity_feedback (issue : Issue) : FeedbackItem :=
  let complexity := issue.complexity.getD 0
  let funcName := issue.funcName.getD "unknown"
  { file := issue.file.getD ""
    line := issue.line.getD 0
    severity := issue.severity.getD "medium"
    category := "complexity"
    message := "High complexity in " ++ funcName ++ " (" ++ toString complexity ++ ")"
    suggestions :=
      ["Break the function into smaller, single-purpose functions",
       "Extract complex logic into separate methods",
       "Consider using design patterns like Strategy or Command",
       "Add early returns to reduce nesting"]
    complexity := some complexity
    tool := "radon" }

/-- `FeedbackGenerator._generate_custom_feedback`. -/
def generate_custom_feedback (issue : Issue) : FeedbackItem :=
  let category := issue.category.getD "unknown"
  let suggestions :=
    if category = "security" then
      ["Review the code for potential security vulnerabilities",
       "Consider using secure coding practices"]
    else if category = "maintenance" then
      ["Address TODO/FIXME comments before merging",
       "Consider creating issues for future improvements"]
    else []
  { file := issue.file.getD ""
    line := issue.line.getD 0
    severity := issue.severity.getD "low"
    category := category
    message := issue.message.getD ""
    suggestions := suggestions
    tool := "custom" }

/-- `FeedbackGenerator._generate_generic_feedback`. -/
def generate_generic_feedback (issue : Issue) : FeedbackItem :=
  { file := issue.file.getD ""
    line := issue.line.getD 0
    severity := issue.severity.getD "info"
    category := issue.category.getD "unknown"
    message := issue.message.getD "Unknown issue"
    suggestions := ["Review the code for potential improvements"]
    tool := issue.tool.getD "unknown" }

/-- `FeedbackGenerator._generate_template_feedback`: dispatch on the tool. -/
def generate_template_feedback (issues : List Issue) : List FeedbackItem :=
  issues.map (fun issue =>
    let tool := issue.tool.getD "unknown"
    if tool = "flake8" then generate_flake8_feedback issue
    else if tool = "bandit" then generate_security_feedback issue
    else if tool = "radon" then generate_complexity_feedback issue
    else if tool = "custom" then generate_custom_feedback issue
    else generate_generic_feedback issue)

/-- `severity_order.get(severity, 5)` in `_prioritize_feedback`. -/
def severityRank (s : String) : Nat :=
  if s = "error" then 0
  else if s = "high" then 1
  else if s = "medium" then 2
  else if s = "low" then 3
  else if s = "info" then 4
  else 5

/-- Lexicographic `≤` on `(severityRank, category, line)` triples: Python's
tuple comparison. -/
def lexLe3 (x y : Nat × String × Int) : Prop :=
  x.1 < y.1 ∨ (x.1 = y.1 ∧ (x.2.1 < y.2.1 ∨ (x.2.1 = y.2.1 ∧ x.2.2 ≤ y.2.2)))

instance : DecidableRel lexLe3 := fun x y => by unfold lexLe3; infer_instance

/-- The sort key `(severityRank, category, line)` of `_prioritize_feedback`. -/
def sortKey (item : FeedbackItem) : Nat × String × Int :=
  (severityRank item.severity, item.category, item.line)

/-- The comparison Python's `sorted(items, key=sort_key)` effectively uses. -/
def KeyLe (a b : FeedbackItem) : Prop := lexLe3 (sortKey a) (sortKey b)

instance : DecidableRel KeyLe := fun a b => by unfold KeyLe; infer_instance

instance : IsTotal FeedbackItem KeyLe :=
  ⟨fun a b => by
    unfold KeyLe lexLe3
    rcases lt_trichotomy (sortKey a).1 (sortKey b).1 with h | h | h
    · exact Or.inl (Or.inl h)
    · rcases lt_trichotomy (sortKey a).2.1 (sortKey b).2.1 with hc | hc | hc
      · exact Or.inl (Or.inr ⟨h, Or.inl hc⟩)
      · rcases le_total (sortKey a).2.2 (sortKey b).2.2 with hl | hl
        · exact Or.inl (Or.inr ⟨h, Or.inr ⟨hc, hl⟩⟩)
        · exact Or.inr (Or.inr ⟨h.symm, Or.inr ⟨hc.symm, hl⟩⟩)
      · exact Or.inr (Or.inr ⟨h.symm, Or.inl hc⟩)
    · exact Or.inr (Or.inl h)⟩

instance : IsTrans FeedbackItem KeyLe :=
  ⟨fun a b c hxy hyz => by
    unfold KeyLe lexLe3 at *
    rcases hxy with h | ⟨e, h⟩
    · rcases hyz with h2 | ⟨e2, h2⟩
      · exact Or.inl (h.trans h2)
      · exact Or.inl (e2 ▸ h)
    · rcases hyz with h2 | ⟨e2, h2⟩
      · exact Or.inl (e ▸ h2)
      · refine Or.inr ⟨e.trans e2, ?_⟩
        rcases h with hc | ⟨ec, hl⟩
        · rcases h2 with hc2 | ⟨ec2, hl2⟩
          · exact Or.inl (hc.trans hc2)
          · exact Or.inl (ec2 ▸ hc)
        · rcases h2 with hc2 | ⟨ec2, hl2⟩
          · exact Or.inl (ec ▸ hc2)
          · exact Or.inr ⟨ec.trans ec2, hl.trans hl2⟩⟩

/-- `FeedbackGenerator._prioritize_feedback`: Python `sorted` is a stable
sort by key, modelled by the stable `List.insertionSort`. -/
def prioritize_feedback (items : List FeedbackItem) : List FeedbackItem :=
  items.insertionSort KeyLe

/-- `AIHelper.generate_feedback` (`src/utils/ai_helpers.py`). The external
LLM service call together with context building and response parsing
(`_prepare_context`, `_call_openai`, `_parse_ai_response`) is abstracted as
the collaborator `collab`; the decisive control structure is from the source:
the whole body sits in `try: ... except Exception: return []`, so any failure
yields the empty list and no exception ever escapes. -/
def aiHelper_generate_feedback (enabled : Bool)
    (collab : String → List Issue → Except String (List FeedbackItem))
    (file : String) (issues : List Issue) : List FeedbackItem :=
  if ¬ enabled then []
  else
    match collab file issues with
    | Except.ok items => items
    | Except.error _ => []

/-- `FeedbackGenerator.generate`: group by file (missing file defaults to
`"unknown"`), per file either take the AI helper's items — falling back to
templates only if that call raises — or use templates, then prioritize.
`aiGen` is the (possibly raising) `self.ai_helper.generate_feedback` call. -/
def generate (use_ai : Bool)
    (aiGen : String → List Issue → Except String (List FeedbackItem))
    (issues : List Issue) : List FeedbackItem :=
  let issues_by_file := groupBy (fun i => i.file.getD "unknown") issues
  let feedback_items := issues_by_file.foldl
    (fun acc g =>
      if use_ai then
        match aiGen g.1 g.2 with
        | Except.ok ai_feedback => acc ++ ai_feedback
        | Except.error _ => acc ++ generate_template_feedback g.2
      else acc ++ generate_template_feedback g.2)
    []
  prioritize_feedback feedback_items

/-- The whole pipeline with the AI path enabled, as built by
`FeedbackGenerator.__init__` with an API key present: the per-file call the
engine makes is `AIHelper.generate_feedback`, which never raises (it swallows
every exception of the external collaborator `collab` and returns `[]`). -/
def generate_with_ai (collab : String → List Issue → Except String (List FeedbackItem))
    (issues : List Issue) : List FeedbackItem :=
  generate true (fun f fis => Except.ok (aiHelper_generate_feedback true collab f fis)) issues

/-- The pipeline with the AI path disabled (no API key): pure template path. -/
def generate_no_ai (issues : List Issue) : List FeedbackItem :=
  generate false (fun _ _ => Except.ok []) issues

/-! ### Concrete inputs used by the claims -/

/-- A flake8 W-code issue, with the severity the analyzer assigns to it. -/
def warnIssue : Issue :=
  { file := some "a.py", line := some 3, severity := some "warning",
    category := some "style", tool := some "flake8", code := some "W293",
    message := some "blank line contains whitespace" }

/-- The claim C5 scenario issue. -/
def scenarioIssue : Issue :=
  { file := some "x.py", line := some 10, severity := some "high",
    category := some "security", tool := some "bandit-like",
    message := some "Potential hardcoded secret detected" }

/-- Five error-severity issues of unknown category: penalty 5 × 20 = 100,
weighted 0.1, so the total score is exactly 90.0. -/
def issues90 : List Issue :=
  List.replicate 5 { severity := some "error", category := some "unknown" }

/-- `issues90` plus one info/maintenance issue (penalty 2, weighted 0.05):
total score exactly 89.9. -/
def issues899 : List Issue :=
  issues90 ++ [{ severity := some "info", category := some "maintenance" }]

/-- An issue in file `"a.py"` (claim C2). -/
def fileAIssue : Issue :=
  { file := some "a.py", line := some 1, severity := some "high",
    category := some "security", tool := some "custom",
    message := some "Potential hardcoded secret detected" }

/-- An issue in file `"b.py"` (claim C2). -/
def fileBIssue : Issue :=
  { file := some "b.py", line := some 2, severity := some "low",
    category := some "maintenance", tool := some "custom",
    message := some "Found TODO: x" }

/-- An externally-sourced feedback item for `"b.py"` (claim C2). -/
def bAiItem : FeedbackItem :=
  { file := "b.py", line := 2, severity := "info", category := "ai_suggestion",
    message := "AI says refactor", suggestions := ["because"], tool := "ai" }

/-- An external feedback collaborator that throws on `"a.py"` and succeeds
on `"b.py"` (claim C2). -/
def failOnA : String → List Issue → Except String (List FeedbackItem) :=
  fun f _ => if f = "a.py" then Except.error "connection error" else Except.ok [bAiItem]

/-! ### Spec-side definitions (claim formulations to compare against) -/

/-- The claim's category multiplier function: `security ×1.5, error ×1.3,
complexity ×1.2, all other categories ×1.0`. -/
def categoryMultiplier (c : String) : ℚ :=
  if c = "security" then 3/2
  else if c = "error" then 13/10
  else if c = "complexity" then 6/5
  else 1

/-- The claim's per-issue penalty formula:
`severityPenalty(severity) × toolWeight(tool) × categoryMultiplier(category)`. -/
def specIssuePenalty (c : String) (i : Issue) : ℚ :=
  severity_penalties (i.severity.getD "info")
    * tool_weights (i.tool.getD "unknown")
    * categoryMultiplier c

/-- The claim's total score formula:
`max(0, 100 − Σ penalty(i) × categoryWeight(category(i)))` over all issues,
rounded to one decimal place. -/
def specTotalScore (issues : List Issue) : ℚ :=
  round1 (max 0 (100 -
    (issues.map (fun i => specIssuePenalty (issueCategory i) i
      * category_weights (issueCategory i))).sum))

/-- The claim's per-category breakdown score:
`max(0, 100 − the sum of the category's issues' penalties)`. -/
def specCategoryScore (c : String) (issues : List Issue) : ℚ :=
  max 0 (100 -
    ((issues.filter (fun i => issueCategory i = c)).map (specIssuePenalty c)).sum)

/-- Spec-side description of deduplication: keep the first occurrence of each
`(file, line, message)` key, drop every later issue with an equal key. -/
def dedupFirstOcc : List Issue → List Issue
  | [] => []
  | x :: xs =>
    x :: dedupFirstOcc (xs.filter (fun y => dedupKey y ≠ dedupKey x))
termination_by l => l.length
decreasing_by
  exact Nat.lt_succ_of_le (List.length_filter_le _ xs)

/-- Proof-side recursive form of the dedup loop, with the `seen` set
generalized. -/
def dedupAux (seen : List (String × Int × String)) : List Issue → List Issue
  | [] => []
  | x :: xs =>
    if dedupKey x ∈ seen then dedupAux seen xs
    else x :: dedupAux (dedupKey x :: seen) xs

/-- The claim's "file present and non-empty" extraction for the
`files_affected` metric. -/
def fileVal (i : Issue) : Option String :=
  match i.file with
  | some f => if f = "" then none else some f
  | none => none

/-- The claim's "line present and nonzero" extraction for the
`lines_affected` metric. -/
def lineVal (i : Issue) : Option Int :=
  match i.line with
  | some n => if n = 0 then none else some n
  | none => none

/-- A two-issue input used to instantiate the scoring-formula claim. -/
def c4IssueA : Issue :=
  { file := some "m.py", line := some 5, severity := some "medium",
    category := some "style", tool := some "flake8",
    message := some "line too long", code := some "E501" }

/-- Second issue of the scoring-formula instance. -/
def c4IssueB : Issue :=
  { file := some "m.py", line := some 9, severity := some "low",
    category := some "maintenance", tool := some "custom",
    message := some "Found TODO: y" }

/-- The issue list of the scoring-formula instance. -/
def c4Issues : List Issue := [c4IssueA, c4IssueB]

/-- The score result of the scoring-formula instance. -/
def c4Result : ScoreResult := (score c4Issues).toOption.getD default

/-- The single security issue used to instantiate the monotonicity claim. -/
def c6Issue : Issue :=
  { file := some "s.py", line := some 2, severity := some "error",
    category := some "security", tool := some "bandit",
    message := some "hardcoded password" }

/-- Score result before adding the security issue (empty input). -/
def c6OldResult : ScoreResult := (score []).toOption.getD default

/-- Score result after adding the security issue. -/
def c6NewResult : ScoreResult := (score [c6Issue]).toOption.getD default

/-- Metrics-claim instance: a normal issue. -/
def c10IssueA : Issue :=
  { file := some "x.py", line := some 3, severity := some "low",
    category := some "style", tool := some "flake8", message := some "m1" }

/-- Metrics-claim instance: empty file name and line zero. -/
def c10IssueB : Issue :=
  { file := some "", line := some 0, severity := some "info",
    category := some "maintenance", tool := some "custom", message := some "m2" }

/-- Metrics-claim instance: no file and no line key at all. -/
def c10IssueC : Issue :=
  { severity := some "medium", category := some "security",
    tool := some "bandit", message := some "m3" }

/-- The issue list of the metrics-claim instance. -/
def c10Issues : List Issue := [c10IssueA, c10IssueB, c10IssueC]

/-- Score result of the metrics-claim instance. -/
def c10Result : ScoreResult := (score c10Issues).toOption.getD default

/-- Metrics block of the metrics-claim instance. -/
def c10Metrics : Metrics := c10Result.metrics.getD default

/-! ### Claim theorems: concrete claims -/

/-- Claim C9: `Score` on the empty issue sequence returns exactly the fixed
perfect result: `total_score = 100`, grade `"A+"`, every category in
security/quality/maintainability/style at 100, the canned "no issues"
summary, and no metrics or recommendations entries. -/
theorem claim_C9_empty_score :
    score [] = Except.ok
      { total_score := 100
        grade := "A+"
        breakdown := [("security", 100), ("quality", 100), ("maintainability", 100), ("style", 100)]
        summary := "No issues found - excellent code quality!"
        metrics := none
        recommendations := none } := rfl

/-- Claim C1 (code bug): the scorer is not total. The analyzer maps flake8
W-codes to severity `"warning"`, and `Score` on an issue with that severity
raises `KeyError` inside `_generate_summary` (whose `severity_counts` dict has
only the five known keys) instead of defaulting; the deduplicator, by
contrast, accepts the same record. -/
theorem claim_C1_score_keyerror :
    get_severity_from_code "W293" = "warning"
    ∧ score [warnIssue] = Except.error "KeyError: warning"
    ∧ deduplicate_issues [warnIssue] = [warnIssue] := by
  refine ⟨by with_unfolding_all decide, by with_unfolding_all rfl, by with_unfolding_all decide⟩

/-- Claim C2 (code bug): when the external feedback collaborator throws for
file `"a.py"`'s group but succeeds for `"b.py"`'s, the pipeline returns
normally and carries the externally-sourced item for `"b.py"`, but `"a.py"`
receives no feedback at all — not the template-sourced items the fallback was
supposed to produce (and which the template engine does produce on that
group): `AIHelper.generate_feedback` swallows the exception and returns `[]`,
so the `except` fallback in `FeedbackGenerator.generate` never runs. -/
theorem claim_C2_fallback_lost :
    (generate_with_ai failOnA [fileAIssue, fileBIssue]).filter (fun x => x.file = "a.py") = []
    ∧ generate_with_ai failOnA [fileAIssue, fileBIssue] = [bAiItem]
    ∧ generate_template_feedback [fileAIssue] ≠ [] := by
  refine ⟨by with_unfolding_all decide, by with_unfolding_all decide, by with_unfolding_all decide⟩

/-- Claim C3 counterexample: an issue set yielding `total_score = 89.9`
exactly is graded `"A-"` (the 85 threshold), not `"B+"` as the claim states. -/
theorem claim_C3_counterexample :
    (score issues899).toOption.map (fun r => (r.total_score, r.grade)) = some (899/10, "A-")
    ∧ ("A-" : String) ≠ "B+" := by
  refine ⟨by with_unfolding_all decide, by decide⟩

theorem grade_eq_Ap_iff (s : ℚ) : calculate_grade s = "A+" ↔ 95 ≤ s := by
  unfold calculate_grade; split_ifs <;> simp_all

theorem grade_eq_A_iff (s : ℚ) : calculate_grade s = "A" ↔ 90 ≤ s ∧ s < 95 := by
  unfold calculate_grade; split_ifs <;> simp_all

theorem grade_eq_Am_iff (s : ℚ) : calculate_grade s = "A-" ↔ 85 ≤ s ∧ s < 90 := by
  unfold calculate_grade; split_ifs <;> simp_all <;> first | linarith | (intro h; linarith) | (constructor <;> linarith)

theorem grade_eq_Bp_iff (s : ℚ) : calculate_grade s = "B+" ↔ 80 ≤ s ∧ s < 85 := by
  unfold calculate_grade; split_ifs <;> simp_all <;> first | linarith | (intro h; linarith) | (constructor <;> linarith)

theorem grade_eq_B_iff (s : ℚ) : calculate_grade s = "B" ↔ 75 ≤ s ∧ s < 80 := by
  unfold calculate_grade; split_ifs <;> simp_all <;> first | linarith | (intro h; linarith) | (constructor <;> linarith)

theorem grade_eq_Bm_iff (s : ℚ) : calculate_grade s = "B-" ↔ 70 ≤ s ∧ s < 75 := by
  unfold calculate_grade; split_ifs <;> simp_all <;> first | linarith | (intro h; linarith) | (constructor <;> linarith)

theorem grade_eq_Cp_iff (s : ℚ) : calculate_grade s = "C+" ↔ 65 ≤ s ∧ s < 70 := by
  unfold calculate_grade; split_ifs <;> simp_all <;> first | linarith | (intro h; linarith) | (constructor <;> linarith)

theorem grade_eq_C_iff (s : ℚ) : calculate_grade s = "C" ↔ 60 ≤ s ∧ s < 65 := by
  unfold calculate_grade; split_ifs <;> simp_all <;> first | linarith | (intro h; linarith) | (constructor <;> linarith)

theorem grade_eq_Cm_iff (s : ℚ) : calculate_grade s = "C-" ↔ 55 ≤ s ∧ s < 60 := by
  unfold calculate_grade; split_ifs <;> simp_all <;> first | linarith | (intro h; linarith) | (constructor <;> linarith)

theorem grade_eq_D_iff (s : ℚ) : calculate_grade s = "D" ↔ 50 ≤ s ∧ s < 55 := by
  unfold calculate_grade; split_ifs <;> simp_all <;> first | linarith | (intro h; linarith) | (constructor <;> linarith)

theorem grade_eq_F_iff (s : ℚ) : calculate_grade s = "F" ↔ s < 50 := by
  unfold calculate_grade; split_ifs <;> simp_all <;> first | linarith | (intro h; linarith) | (constructor <;> linarith)

/-- Claim C3, amended: a synthetic issue set yielding `total_score = 90.0`
exactly is graded `"A"`, and one yielding `89.9` is graded `"A-"` (not
`"B+"`: by the claim's own thresholds, `"B+"` needs a score below 85); in
general the grade is derived from the score by the inclusive descending
lower-bound thresholds `95→A+, 90→A, 85→A-, 80→B+, 75→B, 70→B-, 65→C+,
60→C, 55→C-, 50→D, else F`. -/
theorem claim_C3_grade_thresholds :
    (score issues90).toOption.map (fun r => (r.total_score, r.grade)) = some ((90 : ℚ), "A")
    ∧ (score issues899).toOption.map (fun r => (r.total_score, r.grade)) = some ((899/10 : ℚ), "A-")
    ∧ ∀ s : ℚ,
      (calculate_grade s = "A+" ↔ 95 ≤ s)
      ∧ (calculate_grade s = "A" ↔ 90 ≤ s ∧ s < 95)
      ∧ (calculate_grade s = "A-" ↔ 85 ≤ s ∧ s < 90)
      ∧ (calculate_grade s = "B+" ↔ 80 ≤ s ∧ s < 85)
      ∧ (calculate_grade s = "B" ↔ 75 ≤ s ∧ s < 80)
      ∧ (calculate_grade s = "B-" ↔ 70 ≤ s ∧ s < 75)
      ∧ (calculate_grade s = "C+" ↔ 65 ≤ s ∧ s < 70)
      ∧ (calculate_grade s = "C" ↔ 60 ≤ s ∧ s < 65)
      ∧ (calculate_grade s = "C-" ↔ 55 ≤ s ∧ s < 60)
      ∧ (calculate_grade s = "D" ↔ 50 ≤ s ∧ s < 55)
      ∧ (calculate_grade s = "F" ↔ s < 50) :=
  ⟨by with_unfolding_all decide, by with_unfolding_all decide,
   fun s =>
    ⟨grade_eq_Ap_iff s, grade_eq_A_iff s, grade_eq_Am_iff s, grade_eq_Bp_iff s,
     grade_eq_B_iff s, grade_eq_Bm_iff s, grade_eq_Cp_iff s, grade_eq_C_iff s,
     grade_eq_Cm_iff s, grade_eq_D_iff s, grade_eq_F_iff s⟩⟩

/-- Claim C5 counterexample: on the scenario input the single feedback item's
message is the issue's own message, without the `"Security issue:"` marker —
the tool string `"bandit-like"` is not the literal `"bandit"`, so dispatch
falls through to the generic path. -/
theorem claim_C5_counterexample :
    (generate_no_ai [scenarioIssue]).all
      (fun fb => startsWithStr fb.message "Security issue:") = false
    ∧ (generate_no_ai [scenarioIssue]).length = 1 := by
  refine ⟨by with_unfolding_all decide, by with_unfolding_all decide⟩

/-- Claim C5, amended: on the scenario input, `Score` yields
`total_score = 93.2 < 100`, `breakdown["security"] = 77.5 < 100` and a
security-remediation recommendation, and `GenerateFeedback` yields exactly
one feedback item — whose message is the issue's own message unchanged
(no `"Security issue:"` marker, since tool `"bandit-like"` takes the generic
path) — with a non-empty suggestions list. -/
theorem claim_C5_scenario :
    (score [scenarioIssue]).toOption.map
      (fun r => (r.total_score, alookup "security" r.breakdown))
      = some ((466/5 : ℚ), some ((155/2 : ℚ)))
    ∧ ((466 : ℚ)/5 < 100 ∧ (155 : ℚ)/2 < 100)
    ∧ (score [scenarioIssue]).toOption.map
        (fun r => (r.recommendations.getD []).contains
          "🔒 Address security issues immediately - these are critical for production safety")
      = some true
    ∧ (generate_no_ai [scenarioIssue]).map (fun fb => (fb.message, fb.suggestions))
      = [("Potential hardcoded secret detected", ["Review the code for potential improvements"])] := by
  refine ⟨by with_unfolding_all decide, by norm_num,
    by with_unfolding_all decide, by with_unfolding_all decide⟩

/-! ### Scoring formula lemmas (claims C4 and C6) -/

theorem foldl_add_eq_sum {α : Type} (f : α → ℚ) (xs : List α) :
    ∀ a : ℚ, xs.foldl (fun acc x => acc + f x) a = a + (xs.map f).sum := by
  induction xs with
  | nil => intro a; simp
  | cons x xs ih => intro a; simp [ih, add_assoc]

theorem calculate_category_penalty_eq_sum (c : String) (issues : List Issue) :
    calculate_category_penalty c issues = (issues.map (issuePenalty c)).sum := by
  unfold calculate_category_penalty
  simpa using foldl_add_eq_sum (issuePenalty c) issues 0

theorem sum_addToGroup {α : Type} (h : String → α → ℚ) (k : String) (x : α) :
    ∀ acc : List (String × List α),
    ((addToGroup acc k x).map (fun g => (g.2.map (h g.1)).sum)).sum
      = (acc.map (fun g => (g.2.map (h g.1)).sum)).sum + h k x := by
  intro acc
  induction acc with
  | nil => simp [addToGroup]
  | cons g rest ih =>
    obtain ⟨k₁, l⟩ := g
    by_cases hk : k₁ = k
    · subst hk
      simp [addToGroup]
      ring
    · simp only [addToGroup, if_neg hk, List.map_cons, List.sum_cons, ih]
      ring

theorem sum_groupBy {α : Type} (φ : α → String) (h : String → α → ℚ) (xs : List α) :
    ∀ acc : List (String × List α),
    (((xs.foldl (fun a x => addToGroup a (φ x) x) acc).map
        (fun g => (g.2.map (h g.1)).sum)).sum)
      = (acc.map (fun g => (g.2.map (h g.1)).sum)).sum
        + (xs.map (fun x => h (φ x) x)).sum := by
  induction xs with
  | nil => intro acc; simp
  | cons x xs ih =>
    intro acc
    simp only [List.foldl_cons, List.map_cons, List.sum_cons]
    rw [ih, sum_addToGroup]
    ring

theorem scoreTotalPenalty_eq_sum (issues : List Issue) :
    scoreTotalPenalty issues
      = (issues.map (fun i =>
          issuePenalty (issueCategory i) i * category_weights (issueCategory i))).sum := by
  have h1 := sum_groupBy issueCategory
    (fun c i => issuePenalty c i * category_weights c) issues []
  simp only [List.map_nil, List.sum_nil, zero_add] at h1
  unfold scoreTotalPenalty
  rw [foldl_add_eq_sum
    (fun g : String × List Issue => calculate_category_penalty g.1 g.2 * category_weights g.1)
    (groupBy issueCategory issues) 0, zero_add, ← h1]
  unfold groupBy
  congr 1
  apply List.map_congr_left
  intro g _
  rw [calculate_category_penalty_eq_sum, ← List.sum_map_mul_right]

theorem issuePenalty_eq_spec (c : String) (i : Issue) :
    issuePenalty c i = specIssuePenalty c i := by
  unfold issuePenalty specIssuePenalty categoryMultiplier
  split_ifs <;> ring

theorem score_ok_fields {issues : List Issue} {r : ScoreResult}
    (hne : issues ≠ []) (h : score issues = Except.ok r) :
    r.total_score = round1 (scoreFinal issues)
    ∧ r.grade = calculate_grade (scoreFinal issues)
    ∧ r.breakdown = scoreBreakdown issues
    ∧ r.metrics = some (calculate_metrics issues)
    ∧ r.recommendations = some (generate_recommendations issues) := by
  unfold score at h
  rw [if_neg hne] at h
  cases hgs : generate_summary issues (scoreFinal issues) with
  | error e => rw [hgs] at h; exact (Except.noConfusion h)
  | ok s =>
    rw [hgs] at h
    injection h with h2
    subst h2
    exact ⟨rfl, rfl, rfl, rfl, rfl⟩

theorem alookup_addToGroup_self {α : Type} (k : String) (x : α) :
    ∀ acc : List (String × List α),
    alookup k (addToGroup acc k x) = some ((alookup k acc).getD [] ++ [x]) := by
  intro acc
  induction acc with
  | nil => simp [addToGroup, alookup]
  | cons g rest ih =>
    obtain ⟨k₁, l⟩ := g
    by_cases hk : k₁ = k
    · subst hk; simp [addToGroup, alookup]
    · simp [addToGroup, hk, alookup, ih]

theorem alookup_addToGroup_ne {α : Type} (k k₂ : String) (x : α) (hne : k₂ ≠ k) :
    ∀ acc : List (String × List α),
    alookup k (addToGroup acc k₂ x) = alookup k acc := by
  intro acc
  induction acc with
  | nil => simp [addToGroup, alookup, hne]
  | cons g rest ih =>
    obtain ⟨k₁, l⟩ := g
    by_cases hk : k₁ = k₂
    · subst hk; simp [addToGroup, alookup, hne]
    · simp [addToGroup, hk, alookup, ih]

theorem alookup_groupBy_foldl {α : Type} [DecidableEq α] (φ : α → String) (k : String) :
    ∀ (xs : List α) (acc : List (String × List α)),
    alookup k (xs.foldl (fun a x => addToGroup a (φ x) x) acc) =
      (match alookup k acc with
       | some l => some (l ++ xs.filter (fun x => φ x = k))
       | none =>
         if xs.filter (fun x => φ x = k) = [] then none
         else some (xs.filter (fun x => φ x = k))) := by
  intro xs
  induction xs with
  | nil => intro acc; cases h : alookup k acc <;> simp [h]
  | cons x xs ih =>
    intro acc
    simp only [List.foldl_cons]
    rw [ih]
    by_cases hx : φ x = k
    · rw [show addToGroup acc (φ x) x = addToGroup acc k x from by rw [hx],
        alookup_addToGroup_self]
      cases h : alookup k acc with
      | some l => simp [h, List.filter_cons, hx]
      | none => simp [h, List.filter_cons, hx]
    · rw [alookup_addToGroup_ne k (φ x) x hx]
      cases h : alookup k acc <;> simp [h, List.filter_cons, hx]

theorem alookup_map_snd {α β : Type} (f : String → List α → β) (k : String) :
    ∀ gs : List (String × List α),
    alookup k (gs.map (fun g => (g.1, f g.1 g.2))) = (alookup k gs).map (f k) := by
  intro gs
  induction gs with
  | nil => simp [alookup]
  | cons g rest ih =>
    obtain ⟨k₁, l⟩ := g
    by_cases hk : k₁ = k
    · subst hk; simp [alookup]
    · simp [alookup, hk, ih]

theorem alookup_scoreBreakdown (issues : List Issue) (c : String) :
    alookup c (scoreBreakdown issues) =
      (if issues.filter (fun i => issueCategory i = c) = [] then none
       else some (specCategoryScore c issues)) := by
  unfold scoreBreakdown
  rw [alookup_map_snd (fun c₁ l => max 0 (100 - calculate_category_penalty c₁ l)) c]
  unfold groupBy
  rw [alookup_groupBy_foldl issueCategory c issues []]
  simp only [alookup]
  by_cases hf : issues.filter (fun i => issueCategory i = c) = []
  · simp [hf]
  · simp only [hf, if_false, Option.map_some']
    unfold specCategoryScore
    rw [calculate_category_penalty_eq_sum,
      show issuePenalty c = specIssuePenalty c from funext (issuePenalty_eq_spec c)]

/-- Claim C4: for every non-empty issue sequence, the reported total score is
`max(0, 100 − Σ severityPenalty × toolWeight × categoryMultiplier × categoryWeight)`
rounded to one decimal, and each category's breakdown entry is
`max(0, 100 − the sum of that category's issues' penalties)`, with the
severity/tool/category tables as the claim lists them. -/
theorem claim_C4_penalty_formula (issues : List Issue) (r : ScoreResult)
    (hne : issues ≠ []) (h : score issues = Except.ok r) :
    r.total_score = specTotalScore issues
    ∧ ∀ c : String, alookup c r.breakdown =
        (if issues.filter (fun i => issueCategory i = c) = [] then none
         else some (specCategoryScore c issues)) := by
  obtain ⟨ht, -, hb, -, -⟩ := score_ok_fields hne h
  constructor
  · rw [ht]
    unfold specTotalScore scoreFinal
    rw [scoreTotalPenalty_eq_sum]
    simp only [issuePenalty_eq_spec]
  · intro c
    rw [hb]
    exact alookup_scoreBreakdown issues c

/-- Witness for C4: the formula claim instantiated on a concrete two-issue
input. -/
theorem claim_C4_witness :
    c4Result.total_score = specTotalScore c4Issues
    ∧ alookup "style" c4Result.breakdown =
        (if c4Issues.filter (fun i => issueCategory i = "style") = [] then none
         else some (specCategoryScore "style" c4Issues)) :=
  ⟨(claim_C4_penalty_formula c4Issues c4Result (by with_unfolding_all decide)
      (by with_unfolding_all rfl)).1,
   (claim_C4_penalty_formula c4Issues c4Result (by with_unfolding_all decide)
      (by with_unfolding_all rfl)).2 "style"⟩

/-! ### Rounding and penalty bounds (claim C6) -/

theorem roundHE_le (q : ℚ) : (roundHE q : ℚ) ≤ q + 1/2 := by
  have h1 : (⌊q⌋ : ℚ) ≤ q := Int.floor_le q
  have h2 : q < ⌊q⌋ + 1 := Int.lt_floor_add_one q
  unfold roundHE
  split_ifs <;> push_cast <;> linarith

theorem le_roundHE (q : ℚ) : q - 1/2 ≤ (roundHE q : ℚ) := by
  have h1 : (⌊q⌋ : ℚ) ≤ q := Int.floor_le q
  have h2 : q < ⌊q⌋ + 1 := Int.lt_floor_add_one q
  unfold roundHE
  split_ifs <;> push_cast <;> linarith

theorem round1_le (q : ℚ) : round1 q ≤ q + 1/20 := by
  have h := roundHE_le (10 * q)
  unfold round1
  rw [div_le_iff (by norm_num : (0:ℚ) < 10)]
  linarith

theorem le_round1 (q : ℚ) : q - 1/20 ≤ round1 q := by
  have h := le_roundHE (10 * q)
  unfold round1
  rw [le_div_iff (by norm_num : (0:ℚ) < 10)]
  linarith

theorem round1_zero : round1 0 = 0 := by
  unfold round1 roundHE
  norm_num

theorem round1_pos_min {q : ℚ} (h : 0 < round1 q) : 1/10 ≤ round1 q := by
  unfold round1 at h ⊢
  have h1 : (1:ℤ) ≤ roundHE (10 * q) := by
    by_contra hc
    push_neg at hc
    have h2 : roundHE (10 * q) ≤ 0 := by omega
    have h3 : ((roundHE (10 * q) : ℤ) : ℚ) ≤ 0 := by exact_mod_cast h2
    linarith
  have h4 : (1:ℚ) ≤ ((roundHE (10 * q) : ℤ) : ℚ) := by exact_mod_cast h1
  linarith

theorem round1_max_zero_stay (f δ : ℚ) (hδ : 36/5 ≤ δ)
    (hz : round1 (max 0 f) = 0) : round1 (max 0 (f - δ)) = 0 := by
  have h1 := le_round1 (max 0 f)
  rw [hz] at h1
  have h2 : f ≤ max 0 f := le_max_right 0 f
  rw [max_eq_left (by linarith : f - δ ≤ 0)]
  exact round1_zero

theorem round1_max_strict (f δ : ℚ) (hδ : 36/5 ≤ δ)
    (hpos : 0 < round1 (max 0 f)) :
    round1 (max 0 (f - δ)) < round1 (max 0 f) := by
  have hmin := round1_pos_min hpos
  have hub := round1_le (max 0 f)
  have hlb := le_round1 (max 0 f)
  have hf : 1/20 ≤ max 0 f := by linarith
  rcases le_or_lt f δ with hfd | hfd
  · rw [max_eq_left (by linarith : f - δ ≤ 0), round1_zero]
    exact hpos
  · have h0f : (0:ℚ) ≤ f := by linarith
    have hmaxf : max 0 f = f := max_eq_right h0f
    have hmaxd : max 0 (f - δ) = f - δ := max_eq_right (by linarith)
    have hub2 := round1_le (f - δ)
    rw [hmaxd, hmaxf]
    rw [hmaxf] at hmin hub hlb
    linarith

theorem tool_weights_ge (t : String) : 4/5 ≤ tool_weights t := by
  unfold tool_weights
  split_ifs <;> norm_num

theorem severity_penalties_nonneg (s : String) : 0 ≤ severity_penalties s := by
  unfold severity_penalties
  split_ifs <;> norm_num

theorem tool_weights_nonneg (t : String) : 0 ≤ tool_weights t :=
  le_trans (by norm_num) (tool_weights_ge t)

theorem issuePenalty_nonneg (c : String) (i : Issue) : 0 ≤ issuePenalty c i := by
  unfold issuePenalty
  have h1 := severity_penalties_nonneg (i.severity.getD "info")
  have h2 := tool_weights_nonneg (i.tool.getD "unknown")
  split_ifs
  · exact mul_nonneg (mul_nonneg h1 (by norm_num)) h2
  · exact mul_nonneg (mul_nonneg h1 (by norm_num)) h2
  · exact mul_nonneg (mul_nonneg h1 (by norm_num)) h2
  · exact mul_nonneg h1 h2

theorem security_error_issuePenalty {i : Issue} (hsev : i.severity = some "error") :
    issuePenalty "security" i = 30 * tool_weights (i.tool.getD "unknown") := by
  unfold issuePenalty severity_penalties
  rw [hsev]
  norm_num

/-- Claim C6: appending one `error`-severity `security`-category issue leaves
a zero total score at zero, strictly decreases any positive total score, and
never increases the security breakdown entry. -/
theorem claim_C6_security_monotonicity (issues : List Issue) (i : Issue)
    (r rNew : ScoreResult)
    (hsev : i.severity = some "error") (hcat : i.category = some "security")
    (hr : score issues = Except.ok r) (hrNew : score (issues ++ [i]) = Except.ok rNew) :
    (r.total_score = 0 → rNew.total_score = 0)
    ∧ (0 < r.total_score → rNew.total_score < r.total_score)
    ∧ (∀ v vNew : ℚ, alookup "security" r.breakdown = some v →
        alookup "security" rNew.breakdown = some vNew → vNew ≤ v) := by
  have hφ : issueCategory i = "security" := by simp [issueCategory, hcat]
  have htw := tool_weights_ge (i.tool.getD "unknown")
  have hδval : issuePenalty (issueCategory i) i * category_weights (issueCategory i)
      = 9 * tool_weights (i.tool.getD "unknown") := by
    rw [hφ, security_error_issuePenalty hsev]
    unfold category_weights
    norm_num
    ring
  have hδ : 36/5 ≤ issuePenalty (issueCategory i) i * category_weights (issueCategory i) := by
    rw [hδval]; linarith
  have hneNew : issues ++ [i] ≠ [] := by simp
  obtain ⟨htN, -, hbN, -, -⟩ := score_ok_fields hneNew hrNew
  have hpenN : scoreTotalPenalty (issues ++ [i]) = scoreTotalPenalty issues
      + issuePenalty (issueCategory i) i * category_weights (issueCategory i) := by
    rw [scoreTotalPenalty_eq_sum, scoreTotalPenalty_eq_sum]
    simp
  have hsfN : scoreFinal (issues ++ [i])
      = max 0 ((100 - scoreTotalPenalty issues)
          - issuePenalty (issueCategory i) i * category_weights (issueCategory i)) := by
    unfold scoreFinal
    rw [hpenN]
    ring_nf
  have hsfO : scoreFinal issues = max 0 (100 - scoreTotalPenalty issues) := rfl
  have hsecpen : 0 ≤ specIssuePenalty "security" i := by
    rw [← issuePenalty_eq_spec]; exact issuePenalty_nonneg _ _
  by_cases hne : issues = []
  · subst hne
    have hrE : r = emptyScoreResult := by
      have hsc : score ([] : List Issue) = Except.ok emptyScoreResult := rfl
      rw [hsc] at hr
      injection hr with h2
      exact h2.symm
    refine ⟨?_, ?_, ?_⟩
    · intro h0
      rw [hrE] at h0
      exact absurd h0 (by norm_num [emptyScoreResult])
    · intro hpos
      rw [htN, hrE]
      show round1 (scoreFinal ([] ++ [i])) < (100:ℚ)
      have hT0 : scoreTotalPenalty ([] : List Issue) = 0 := rfl
      have h1 : scoreFinal ([] ++ [i]) ≤ 100 - 36/5 := by
        rw [hsfN, hT0]
        apply max_le <;> linarith
      have h2 := round1_le (scoreFinal ([] ++ [i]))
      linarith
    · intro v vNew hv hvN
      have hv100 : v = 100 := by
        rw [hrE] at hv
        simp [emptyScoreResult, alookup] at hv
        exact hv.symm
      subst hv100
      rw [hbN] at hvN
      have hnil : ([] : List Issue) ++ [i] = [i] := rfl
      rw [hnil, alookup_scoreBreakdown] at hvN
      have hfilt : ([i].filter (fun x => issueCategory x = "security")) = [i] := by
        simp [hφ]
      rw [if_neg (by rw [hfilt]; simp)] at hvN
      injection hvN with hvN2
      rw [← hvN2]
      unfold specCategoryScore
      rw [hfilt]
      simp only [List.map_cons, List.map_nil, List.sum_cons, List.sum_nil, add_zero]
      apply max_le (by norm_num)
      linarith
  · obtain ⟨htO, -, hbO, -, -⟩ := score_ok_fields hne hr
    refine ⟨?_, ?_, ?_⟩
    · intro h0
      rw [htO, hsfO] at h0
      rw [htN, hsfN]
      exact round1_max_zero_stay _ _ hδ h0
    · intro hpos
      rw [htO, hsfO] at hpos
      rw [htN, hsfN, htO, hsfO]
      exact round1_max_strict _ _ hδ hpos
    · intro v vNew hv hvN
      rw [hbO, alookup_scoreBreakdown] at hv
      rw [hbN, alookup_scoreBreakdown] at hvN
      by_cases hfO : issues.filter (fun x => issueCategory x = "security") = []
      · rw [if_pos hfO] at hv
        exact Option.noConfusion hv
      · rw [if_neg hfO] at hv
        injection hv with hv2
        have hfN : (issues ++ [i]).filter (fun x => issueCategory x = "security")
            = issues.filter (fun x => issueCategory x = "security") ++ [i] := by
          simp [List.filter_append, hφ]
        rw [if_neg (by rw [hfN]; simp)] at hvN
        injection hvN with hvN2
        rw [← hv2, ← hvN2]
        unfold specCategoryScore
        rw [hfN]
        simp only [List.map_append, List.sum_append, List.map_cons, List.map_nil,
          List.sum_cons, List.sum_nil, add_zero]
        apply max_le_max le_rfl
        linarith

/-- Witness for C6: adding the security issue to the empty issue set drops
the total score strictly below 100. -/
theorem claim_C6_witness :
    0 < c6OldResult.total_score ∧ c6NewResult.total_score < c6OldResult.total_score :=
  ⟨by with_unfolding_all decide,
   (claim_C6_security_monotonicity [] c6Issue c6OldResult c6NewResult rfl rfl
      (by with_unfolding_all rfl) (by with_unfolding_all rfl)).2.1
      (by with_unfolding_all decide)⟩

/-! ### Deduplication lemmas (claim C7) -/

theorem dedup_foldl (xs : List Issue) :
    ∀ (seen : List (String × Int × String)) (out : List Issue),
    (xs.foldl
      (fun st i => if dedupKey i ∈ st.1 then st else (dedupKey i :: st.1, st.2 ++ [i]))
      (seen, out)).2 = out ++ dedupAux seen xs := by
  induction xs with
  | nil => intro seen out; simp [dedupAux]
  | cons x xs ih =>
    intro seen out
    simp only [List.foldl_cons]
    by_cases hk : dedupKey x ∈ seen
    · simp [hk, dedupAux, ih]
    · simp [hk, dedupAux, ih]

theorem dedupAux_eq (xs : List Issue) :
    ∀ seen, dedupAux seen xs
      = dedupFirstOcc (xs.filter (fun y => dedupKey y ∉ seen)) := by
  induction xs with
  | nil => intro seen; simp [dedupAux, dedupFirstOcc]
  | cons x xs ih =>
    intro seen
    by_cases hk : dedupKey x ∈ seen
    · rw [show (x :: xs).filter (fun y => dedupKey y ∉ seen)
          = xs.filter (fun y => dedupKey y ∉ seen) from by simp [List.filter_cons, hk]]
      simp only [dedupAux, if_pos hk]
      exact ih seen
    · rw [show (x :: xs).filter (fun y => dedupKey y ∉ seen)
          = x :: xs.filter (fun y => dedupKey y ∉ seen) from by simp [List.filter_cons, hk]]
      rw [dedupFirstOcc]
      simp only [dedupAux, if_neg hk]
      rw [ih (dedupKey x :: seen)]
      congr 1
      rw [List.filter_filter]
      have hfeq : List.filter (fun y => decide (dedupKey y ∉ dedupKey x :: seen)) xs
          = List.filter
              (fun y => decide (dedupKey y ≠ dedupKey x) && decide (dedupKey y ∉ seen)) xs := by
        apply List.filter_congr
        intro y _
        by_cases h1 : dedupKey y = dedupKey x <;> by_cases h2 : dedupKey y ∈ seen <;>
          simp [h1, h2, List.mem_cons]
      rw [hfeq]

theorem deduplicate_eq_dedupFirstOcc (issues : List Issue) :
    deduplicate_issues issues = dedupFirstOcc issues := by
  unfold deduplicate_issues
  rw [dedup_foldl issues [] []]
  rw [dedupAux_eq issues []]
  simp

theorem dedupFirstOcc_sublist (l : List Issue) : List.Sublist (dedupFirstOcc l) l := by
  induction l using dedupFirstOcc.induct with
  | case1 => simp [dedupFirstOcc]
  | case2 x xs ih =>
    rw [dedupFirstOcc]
    exact List.Sublist.cons₂ x (ih.trans (List.filter_sublist xs))

theorem dedupFirstOcc_pairwise (l : List Issue) :
    (dedupFirstOcc l).Pairwise (fun a b => dedupKey a ≠ dedupKey b) := by
  induction l using dedupFirstOcc.induct with
  | case1 => simp [dedupFirstOcc]
  | case2 x xs ih =>
    rw [dedupFirstOcc]
    refine List.Pairwise.cons ?_ ih
    intro b hb
    have hb2 : b ∈ xs.filter (fun y => dedupKey y ≠ dedupKey x) :=
      (dedupFirstOcc_sublist _).subset hb
    have hb3 := List.of_mem_filter hb2
    simp only [ne_eq, decide_not, Bool.not_eq_true', decide_eq_false_iff_not] at hb3
    exact fun h => hb3 h.symm

/-- Claim C7: deduplication returns exactly the subsequence keeping the first
occurrence of each `(file, line, message)` key (fields defaulting to
`""`/`0`/`""`), in input order; later issues with an equal key are dropped
whatever their other fields; the result is a sublist of the input with
pairwise-distinct keys, and the empty input yields the empty output. -/
theorem claim_C7_dedup_first_occurrence :
    ∀ issues : List Issue,
      deduplicate_issues issues = dedupFirstOcc issues
      ∧ List.Sublist (deduplicate_issues issues) issues
      ∧ (deduplicate_issues issues).Pairwise (fun a b => dedupKey a ≠ dedupKey b)
      ∧ deduplicate_issues ([] : List Issue) = [] := by
  intro issues
  refine ⟨deduplicate_eq_dedupFirstOcc issues, ?_, ?_, rfl⟩
  · rw [deduplicate_eq_dedupFirstOcc]
    exact dedupFirstOcc_sublist issues
  · rw [deduplicate_eq_dedupFirstOcc]
    exact dedupFirstOcc_pairwise issues

/-! ### Prioritizer lemmas (claim C8) -/

theorem prioritize_filter_key (items : List FeedbackItem) (k : Nat × String × Int) :
    (prioritize_feedback items).filter (fun x => sortKey x = k)
      = items.filter (fun x => sortKey x = k) := by
  have hall : ∀ x ∈ items.filter (fun x => sortKey x = k), sortKey x = k := by
    intro x hx
    have := List.of_mem_filter hx
    simpa using this
  have hpw : (items.filter (fun x => sortKey x = k)).Pairwise KeyLe := by
    apply List.pairwise_of_forall_mem_list
    intro a ha b hb
    unfold KeyLe
    rw [hall a ha, hall b hb]
    exact Or.inr ⟨rfl, Or.inr ⟨rfl, le_refl _⟩⟩
  have hsub : List.Sublist (items.filter (fun x => sortKey x = k)) (prioritize_feedback items) :=
    List.sublist_insertionSort hpw (List.filter_sublist items)
  have hsub2 : List.Sublist
      ((items.filter (fun x => sortKey x = k)).filter (fun x => sortKey x = k))
      ((prioritize_feedback items).filter (fun x => sortKey x = k)) :=
    List.Sublist.filter _ hsub
  rw [List.filter_eq_self.mpr (fun a ha => by simpa using hall a ha)] at hsub2
  have hperm : List.Perm ((prioritize_feedback items).filter (fun x => sortKey x = k))
      (items.filter (fun x => sortKey x = k)) :=
    List.Perm.filter _ (List.perm_insertionSort KeyLe items)
  exact (hsub2.eq_of_length hperm.length_eq.symm).symm

/-- Claim C8: the prioritizer returns a permutation of its input that is
totally ordered by the ascending lexicographic key
`(severityRank, category, line)` — severity ranking `error=0, high=1,
medium=2, low=3, info=4`, unknown severities ranked 5 (last), categories
compared lexicographically, lines numerically — and the sort is stable:
items with equal keys keep their relative input order. -/
theorem claim_C8_prioritizer_order :
    ∀ items : List FeedbackItem,
      List.Perm (prioritize_feedback items) items
      ∧ (prioritize_feedback items).Pairwise (fun a b =>
          severityRank a.severity < severityRank b.severity
          ∨ (severityRank a.severity = severityRank b.severity
              ∧ (a.category < b.category
                ∨ (a.category = b.category ∧ a.line ≤ b.line))))
      ∧ ∀ k : Nat × String × Int,
          (prioritize_feedback items).filter (fun x => sortKey x = k)
            = items.filter (fun x => sortKey x = k) := by
  intro items
  refine ⟨List.perm_insertionSort KeyLe items, ?_, prioritize_filter_key items⟩
  exact List.sorted_insertionSort KeyLe items

/-! ### Metrics lemmas (claim C10) -/

theorem metrics_foldl_files (issues : List Issue) :
    ∀ acc : MetricsAcc,
    (issues.foldl metricsStep acc).files
      = (issues.filterMap fileVal).foldl addIfAbsent acc.files := by
  induction issues with
  | nil => intro acc; simp
  | cons i issues ih =>
    intro acc
    simp only [List.foldl_cons]
    rw [ih]
    cases hf : i.file with
    | none => simp [metricsStep, fileVal, hf, List.filterMap_cons]
    | some f =>
      by_cases hfe : f = ""
      · simp [metricsStep, fileVal, hf, hfe, List.filterMap_cons]
      · simp [metricsStep, fileVal, hf, hfe, List.filterMap_cons]

theorem metrics_foldl_lines (issues : List Issue) :
    ∀ acc : MetricsAcc,
    (issues.foldl metricsStep acc).lines
      = (issues.filterMap lineVal).foldl addIfAbsent acc.lines := by
  induction issues with
  | nil => intro acc; simp
  | cons i issues ih =>
    intro acc
    simp only [List.foldl_cons]
    rw [ih]
    cases hf : i.line with
    | none => simp [metricsStep, lineVal, hf, List.filterMap_cons]
    | some n =>
      by_cases hne : n = 0
      · simp [metricsStep, lineVal, hf, hne, List.filterMap_cons]
      · simp [metricsStep, lineVal, hf, hne, List.filterMap_cons]

theorem foldl_addIfAbsent_mem {α : Type} [DecidableEq α] (l : List α) :
    ∀ (acc : List α) (y : α), y ∈ l.foldl addIfAbsent acc ↔ y ∈ acc ∨ y ∈ l := by
  induction l with
  | nil => intro acc y; simp
  | cons x l ih =>
    intro acc y
    simp only [List.foldl_cons]
    rw [ih]
    unfold addIfAbsent
    by_cases hx : x ∈ acc
    · simp only [if_pos hx, List.mem_cons]
      constructor
      · tauto
      · rintro (h | h | h)
        · exact Or.inl h
        · exact Or.inl (h ▸ hx)
        · exact Or.inr h
    · simp only [if_neg hx, List.mem_append, List.mem_singleton, List.mem_cons]
      tauto

theorem foldl_addIfAbsent_nodup {α : Type} [DecidableEq α] (l : List α) :
    ∀ acc : List α, acc.Nodup → (l.foldl addIfAbsent acc).Nodup := by
  induction l with
  | nil => intro acc h; simpa
  | cons x l ih =>
    intro acc h
    simp only [List.foldl_cons]
    apply ih
    unfold addIfAbsent
    by_cases hx : x ∈ acc
    · simpa [hx]
    · simp only [if_neg hx]
      simp [List.nodup_append, h, hx]

theorem foldl_addIfAbsent_length {α : Type} [DecidableEq α] (l : List α) :
    (l.foldl addIfAbsent []).length = l.toFinset.card := by
  have hnd : (l.foldl addIfAbsent []).Nodup := foldl_addIfAbsent_nodup l [] (by simp)
  have hmem : ∀ y, y ∈ l.foldl addIfAbsent [] ↔ y ∈ l := by
    intro y
    rw [foldl_addIfAbsent_mem]
    simp
  rw [← List.toFinset_card_of_nodup hnd]
  congr 1
  ext y
  simp [List.mem_toFinset, hmem]

theorem files_affected_eq (issues : List Issue) :
    (calculate_metrics issues).files_affected = (issues.filterMap fileVal).toFinset.card := by
  unfold calculate_metrics
  dsimp only
  rw [metrics_foldl_files issues ⟨[], [], [], [], []⟩]
  exact foldl_addIfAbsent_length _

theorem lines_affected_eq (issues : List Issue) :
    (calculate_metrics issues).lines_affected = (issues.filterMap lineVal).toFinset.card := by
  unfold calculate_metrics
  dsimp only
  rw [metrics_foldl_lines issues ⟨[], [], [], [], []⟩]
  exact foldl_addIfAbsent_length _

/-- Claim C10: the metrics returned by `Score` count distinct files only over
issues whose file is present and non-empty, and distinct lines only over
issues whose line is present and nonzero; an issue with a missing or empty
file never contributes to `files_affected` and one with a missing or zero
line never contributes to `lines_affected`. -/
theorem claim_C10_metrics_distinct (issues : List Issue) (r : ScoreResult) (m : Metrics)
    (hne : issues ≠ []) (h : score issues = Except.ok r) (hm : r.metrics = some m) :
    m.files_affected = (issues.filterMap fileVal).toFinset.card
    ∧ m.lines_affected = (issues.filterMap lineVal).toFinset.card
    ∧ (∀ i : Issue, fileVal i = none →
        (calculate_metrics (issues ++ [i])).files_affected
          = (calculate_metrics issues).files_affected)
    ∧ (∀ i : Issue, lineVal i = none →
        (calculate_metrics (issues ++ [i])).lines_affected
          = (calculate_metrics issues).lines_affected) := by
  obtain ⟨-, -, -, hmet, -⟩ := score_ok_fields hne h
  rw [hmet] at hm
  injection hm with hm2
  subst hm2
  refine ⟨files_affected_eq issues, lines_affected_eq issues, ?_, ?_⟩
  · intro i hi
    rw [files_affected_eq, files_affected_eq, List.filterMap_append]
    simp [hi]
  · intro i hi
    rw [lines_affected_eq, lines_affected_eq, List.filterMap_append]
    simp [hi]

/-- Witness for C10: the metrics claim instantiated on a three-issue input
containing an empty file name, a zero line, and missing file/line keys. -/
theorem claim_C10_witness :
    c10Metrics.files_affected = (c10Issues.filterMap fileVal).toFinset.card
    ∧ c10Metrics.lines_affected = (c10Issues.filterMap lineVal).toFinset.card :=
  ⟨(claim_C10_metrics_distinct c10Issues c10Result c10Metrics
      (by with_unfolding_all decide) (by with_unfolding_all rfl)
      (by with_unfolding_all rfl)).1,
   (claim_C10_metrics_distinct c10Issues c10Result c10Metrics
      (by with_unfolding_all decide) (by with_unfolding_all rfl)
      (by with_unfolding_all rfl)).2.1⟩

end PRAgent
